import Mathlib

/-!
Verification development for the two command-line utilities of this
repository: `scripts/audio_processor.py` (audio extraction + transcription
pipeline) and `scripts/tiktok_search.py` (tiered video search).

The Python code is shallowly embedded: external effects (the yt-dlp
downloader, the ffmpeg subprocess, the speech-to-text service, the remote
video feeds, the filesystem) are passed in as explicit behaviour values, and
each Python function is translated into a total Lean function over those
behaviours.  Python exceptions are modelled with `Except` / tagged outcome
constructors; the filesystem is the list of paths that currently exist.
-/

/-- Boolean infix test on character lists: `hasInfix needle hay` is true iff
`needle` occurs contiguously inside `hay`.  Used to embed Python's
`in` substring operator and the unanchored `re.search`. -/
def hasInfix (needle : List Char) : List Char → Bool
  | [] => needle.isEmpty
  | c :: rest => needle.isPrefixOf (c :: rest) || hasInfix needle rest

/-! ## audio_processor.py -/

/-- `is_youtube_url` (audio_processor.py line 26): `re.search` with pattern
`(https?://)?(www\.)?(youtube\.com/(watch\?v=|embed/|v/)|youtu\.be/)`.
Because the search is unanchored and the scheme/`www.` groups are optional,
the pattern matches exactly when one of the four mandatory cores occurs as a
substring of the url. -/
def is_youtube_url (url : String) : Bool :=
  hasInfix "youtube.com/watch?v=".data url.data ||
  hasInfix "youtube.com/embed/".data url.data ||
  hasInfix "youtube.com/v/".data url.data ||
  hasInfix "youtu.be/".data url.data

/-- Which extraction strategy `extract_audio_from_video` dispatched to. -/
inductive Strategy where
  | ytDlp
  | ffmpeg
  deriving DecidableEq

/-- Behaviour of the external ffmpeg process for one invocation:
it either finishes after `secs` wall-clock seconds with an exit code and
diagnostic (stderr) text, or the subprocess call itself raises. -/
inductive ProcBehavior where
  | finishes (secs : Nat) (exitCode : Nat) (diag : String)
  | throws (e : String)
  deriving DecidableEq

/-- Observable outcome of `subprocess.run(cmd, ..., timeout=t)`:
completion with exit code and stderr, a `TimeoutExpired`, or another
exception. -/
inductive ProcResult where
  | completed (exitCode : Nat) (diag : String)
  | timedOut
  | raised (e : String)
  deriving DecidableEq

/-- `subprocess.run` with a wall-clock timeout of `t` seconds: the process
result is a timeout exactly when the process would run longer than `t`. -/
def runProc : ProcBehavior → Nat → ProcResult
  | .finishes secs code diag, t => if secs > t then .timedOut else .completed code diag
  | .throws e, _ => .raised e

/-- The exceptions that can escape `extract_audio_from_video`
(audio_processor.py lines 110-125): a non-zero ffmpeg exit re-raised with the
process's stderr attached, the distinct timeout failure, any other exception
re-raised as is, and a failed YouTube download wrapped by
`download_youtube_audio`. -/
inductive ExtractionError where
  | ffmpegFailed (diag : String)
  | extractionTimeout
  | reraised (e : String)
  | ytDownloadFailed (e : String)
  deriving DecidableEq

/-- The fixed timeout passed to `subprocess.run` (audio_processor.py line 111). -/
def ffmpegTimeoutSeconds : Nat := 60

/-- The ffmpeg branch of `extract_audio_from_video` (lines 110-125):
exit code 0 returns the output path; a non-zero exit raises
`FFmpeg failed: {stderr}`; `TimeoutExpired` raises the distinct
`Audio extraction timeout`; any other exception is re-raised. -/
def extractViaFfmpeg : ProcResult → String → Except ExtractionError String
  | .completed 0 _, outPath => .ok outPath
  | .completed (_ + 1) diag, _ => .error (.ffmpegFailed diag)
  | .timedOut, _ => .error .extractionTimeout
  | .raised e, _ => .error (.reraised e)

/-- `extract_audio_from_video` (audio_processor.py lines 74-125) as seen from
its caller.  `ytB` is the outcome of the yt-dlp download (`.ok` = path of the
downloaded audio, `.error` = the message wrapped by
`download_youtube_audio` as `YouTube download failed: {e}`); `procB` is the
external ffmpeg process's behaviour; `outPath` the (generated) temporary
output path.  The second component records which strategy ran. -/
def extract_audio_from_video (url : String) (ytB : Except String String)
    (procB : ProcBehavior) (outPath : String) :
    Except ExtractionError String × Strategy :=
  if is_youtube_url url then
    (match ytB with
      | .ok p => .ok p
      | .error e => .error (.ytDownloadFailed e), .ytDlp)
  else
    (extractViaFfmpeg (runProc procB ffmpegTimeoutSeconds) outPath, .ffmpeg)

/-- The `message` strings produced by the pipeline, as tagged values (the
Python code interpolates them into Russian f-strings; the tag records which
note was produced and what data it carries). -/
inductive PipelineNote where
  | sizeExceeded (bytes : Nat)
  | transcribed (lang : String)
  | transcriptionError (e : String)
  | processingError (e : String)
  deriving DecidableEq

/-- `TranscriptionResult`: the dict shape returned by `transcribe_audio` and
`process_video`.  `duration = none` models both an absent `duration` key and
a present key holding Python `None` (indistinguishable to
`result.get("duration")`); durations and costs are embedded as rationals. -/
structure TResult where
  success : Bool
  transcript : String
  language : String
  duration : Option ℚ
  estimated_cost : Option ℚ
  message : PipelineNote
  deriving DecidableEq

/-- Behaviour of one call to the remote speech-to-text service: a verbose
response carrying text, detected language and optional duration, or a raised
service error. -/
inductive ServiceBehavior where
  | ok (text lang : String) (duration : Option ℚ)
  | err (e : String)
  deriving DecidableEq

/-- `transcribe_audio` (audio_processor.py lines 127-179), parametrised by
the size in bytes of the audio file and the remote service's behaviour.
The second component records whether the remote service was invoked.
If the file exceeds 25 MB the size-exceeded failure is returned without
calling the service; a service error is caught and converted to a failure
result; otherwise the verbose response is reshaped into a success result. -/
def transcribe_audio (fileSize : Nat) (svc : ServiceBehavior) : TResult × Bool :=
  if fileSize > 25 * 1024 * 1024 then
    (⟨false, "", "en", none, none, .sizeExceeded fileSize⟩, false)
  else
    match svc with
    | .ok text lang dur => (⟨true, text, lang, dur, none, .transcribed lang⟩, true)
    | .err e => (⟨false, "", "en", none, none, .transcriptionError e⟩, true)

/-- The fetch step as observed by `process_video`: `extract_audio_from_video`
either raises (possibly leaving behind the temporary file it created with
`NamedTemporaryFile(delete=False)` before the tool failed — the `leak` path,
unknown to the caller) or returns the path of the extracted audio file,
which then exists on disk. -/
inductive FetchB where
  | raisesF (e : String) (leak : Option String)
  | returnsPath (p : String)
  deriving DecidableEq

/-- The transcription step as observed by `process_video`: either the call
runs `transcribe_audio` against the given service behaviour, or an injected
exception is raised mid-pipeline in its place. -/
inductive TStep where
  | callsService (svc : ServiceBehavior)
  | raisesT (e : String)
  deriving DecidableEq

/-- The filesystem, as the list of paths that currently exist. -/
abbrev FS := List String

/-- `process_video` (audio_processor.py lines 181-225).  Threads the
filesystem: a successful fetch creates the returned path; the `finally`
block deletes the fetched path when `cleanup` is true, the path is known
(`audio_path` not `None`) and the file exists.  Any exception from the fetch
or an injected mid-pipeline exception is caught and converted into a
failure-shaped result.  When the transcription result carries a truthy
duration, `estimated_cost = duration / 60 * 0.006` is attached. -/
def process_video (fs : FS) (fetchB : FetchB) (tstep : TStep)
    (fileSize : Nat) (cleanup : Bool) : TResult × FS :=
  match fetchB with
  | .raisesF e leak =>
      let fs₁ := match leak with
        | none => fs
        | some q => q :: fs
      (⟨false, "", "en", none, none, .processingError e⟩, fs₁)
  | .returnsPath p =>
      let fs₁ : FS := p :: fs
      let res : TResult :=
        match tstep with
        | .raisesT e => ⟨false, "", "en", none, none, .processingError e⟩
        | .callsService svc =>
            let tr := (transcribe_audio fileSize svc).1
            match tr.duration with
            | some d =>
                if d = 0 then tr
                else { tr with estimated_cost := some (d / 60 * (6 / 1000)) }
            | none => tr
      let fs₂ : FS :=
        if cleanup = true ∧ p ∈ fs₁ then fs₁.filter (fun q => q ≠ p) else fs₁
      (res, fs₂)

/-! ## tiktok_search.py -/

/-- The fields of one raw video from the TikTok API that
`search_tiktok_videos` reads (via `video.as_dict`, `video.id`,
`video.author.username`). -/
structure TikTokItem where
  id : String
  authorUsername : String
  desc : String
  cover : String
  playCount : Nat
  diggCount : Nat
  commentCount : Nat
  duration : Nat
  createTime : String
  hashtags : List String
  musicTitle : String
  deriving DecidableEq

/-- The normalized `video_data` dict built for each kept video. -/
structure VideoRecord where
  video_id : String
  platform : String
  title : String
  description : String
  url : String
  thumbnail_url : String
  views : Nat
  likes : Nat
  comments : Nat
  duration : Nat
  published_at : String
  author : String
  hashtags : List String
  music : String
  deriving DecidableEq

/-- The mapping of a raw video into `video_data` shared by both tiers
(tiktok_search.py lines 63-78 and 104-119), minus the tier-specific title
fallback: Python's `x or d` idiom maps empty/zero values to the default. -/
def baseRecord (fallbackTitle : String) (v : TikTokItem) : VideoRecord :=
  { video_id := v.id
    platform := "tiktok"
    title := if v.desc = "" then fallbackTitle else v.desc
    description := v.desc
    url := "https://www.tiktok.com/@" ++ v.authorUsername ++ "/video/" ++ v.id
    thumbnail_url := v.cover
    views := v.playCount
    likes := v.diggCount
    comments := v.commentCount
    duration := if v.duration = 0 then 30 else v.duration
    published_at := v.createTime
    author := v.authorUsername
    hashtags := v.hashtags.filter (fun t => t ≠ "")
    music := v.musicTitle }

/-- Hashtag-tier record mapping: the title falls back to
`TikTok video about {query}`. -/
def toRecordHashtag (query : String) (v : TikTokItem) : VideoRecord :=
  baseRecord ("TikTok video about " ++ query) v

/-- Trending-tier record mapping: the title falls back to
`Trending TikTok video`. -/
def toRecordTrending (v : TikTokItem) : VideoRecord :=
  baseRecord "Trending TikTok video" v

/-- Python's `str.split()` with no argument, on a character list: split on
runs of whitespace, producing no empty tokens.  `cur` accumulates the
current token in reverse. -/
def splitWsAux : List Char → List Char → List (List Char)
  | [], cur => if cur.isEmpty then [] else [cur.reverse]
  | c :: rest, cur =>
      if c.isWhitespace then
        if cur.isEmpty then splitWsAux rest [] else cur.reverse :: splitWsAux rest []
      else splitWsAux rest (c :: cur)

/-- The trending-tier relevance filter (tiktok_search.py lines 101-103):
some whitespace-split token of the query occurs, case-insensitively, as a
substring of the video's description (`keyword.lower() in desc.lower()`). -/
def matchesQuery (query desc : String) : Bool :=
  let tokens := splitWsAux query.data []
  let d := desc.data.map Char.toLower
  tokens.any (fun kw => hasInfix (kw.map Char.toLower) d)

/-- The hashtag-tier loop (tiktok_search.py lines 54-85) over the items the
hashtag feed yields before it either ends or raises.  `cnt` is
`video_count`, incremented once per appended record; the loop `break`s when
`video_count >= max_results` is seen at the top of the body, i.e. only after
one more item was pulled from the feed.  Returns the accumulated `videos`
list and whether the loop broke early (in which case a trailing feed error
is never reached). -/
def hashtagLoop (query : String) (maxResults : Nat) :
    List TikTokItem → Nat → List VideoRecord → List VideoRecord × Bool
  | [], _, acc => (acc, false)
  | v :: rest, cnt, acc =>
      if maxResults ≤ cnt then (acc, true)
      else hashtagLoop query maxResults rest (cnt + 1) (acc ++ [toRecordHashtag query v])

/-- The trending-tier loop (tiktok_search.py lines 93-127).  `cnt` is this
tier's own `video_count`, incremented once per examined item whether or not
it matched; only matching items are appended, onto the `videos` list shared
with the hashtag tier.  A trending feed that errors mid-stream is modelled
by the list of items it yielded first (the error is swallowed at line 129
and simply ends the loop). -/
def trendingLoop (query : String) (maxResults : Nat) :
    List TikTokItem → Nat → List VideoRecord → List VideoRecord
  | [], _, acc => acc
  | v :: rest, cnt, acc =>
      if maxResults ≤ cnt then acc
      else if matchesQuery query v.desc then
        trendingLoop query maxResults rest (cnt + 1) (acc ++ [toRecordTrending v])
      else trendingLoop query maxResults rest (cnt + 1) acc

/-- The `message` strings of the search result, as tagged values. -/
inductive SearchNote where
  | found (n : Nat) (query : String)
  | noneFound (query : String)
  | topError (e : String) (query : String)
  deriving DecidableEq

/-- The dict returned by `search_tiktok_videos`. -/
structure SearchOutcome where
  success : Bool
  videos : List VideoRecord
  total_found : Nat
  message : SearchNote
  deriving DecidableEq

/-- Behaviour of API construction / `create_sessions`: succeeds, or raises
(caught by the top-level handler at line 149). -/
inductive SessionB where
  | ok
  | raisesS (e : String)
  deriving DecidableEq

/-- The `videos` list as it stands after both tiers (tiktok_search.py lines
46-130): the hashtag loop runs first; the trending tier runs — appending onto
the same list — only when the hashtag feed's `except` fired, which requires
the feed's error (an optional error raised after the items it yielded;
`none` = the feed ends normally) to be reached before the loop's `break`. -/
def collectVideos (query : String) (maxResults : Nat)
    (hashtagItems : List TikTokItem) (hashtagErrAfter : Option String)
    (trendingItems : List TikTokItem) : List VideoRecord :=
  let hl := hashtagLoop query maxResults hashtagItems 0 []
  if hl.2 then hl.1
  else
    match hashtagErrAfter with
    | none => hl.1
    | some _ => trendingLoop query maxResults trendingItems 0 hl.1

/-- `search_tiktok_videos` (tiktok_search.py lines 19-156), parametrised by
the external behaviours: the session setup, the hashtag feed (items plus
optional trailing error) and the trending feed.  Zero collected records give
the `success:false` shape; a top-level exception (session setup) is caught
and gives the same shape with the error message attached. -/
def search_tiktok_videos (query : String) (maxResults : Nat) (session : SessionB)
    (hashtagItems : List TikTokItem) (hashtagErrAfter : Option String)
    (trendingItems : List TikTokItem) : SearchOutcome :=
  match session with
  | .raisesS e => ⟨false, [], 0, .topError e query⟩
  | .ok =>
      let videos := collectVideos query maxResults hashtagItems hashtagErrAfter trendingItems
      if videos.isEmpty then ⟨false, [], 0, .noneFound query⟩
      else ⟨true, videos, videos.length, .found videos.length query⟩

/-- A raw feed item with the given id and description (the other fields are
immaterial to the loops); used for concrete runs of the search model. -/
def mkItem (i d : String) : TikTokItem :=
  ⟨i, "user", d, "", 0, 0, 0, 30, "", [], ""⟩

/-! ## Claim theorems -/

/-- C1: in every pipeline run with `cleanup = true`, the fetched audio asset
is deleted on every exit path out of `process_video` — transcription failure
(service error or oversized file), transcription success, and an injected
exception mid-pipeline are the `tstep`/`fileSize` instances; on fetch
failure no asset was fetched (`audio_path` stays `None`) and the run leaves
the filesystem as the fetcher left it.  With `cleanup = false` the asset
persists after the run. -/
theorem C1_asset_cleanup (fs : FS) (tstep : TStep) (fileSize : Nat)
    (p e : String) (cleanup : Bool) :
    p ∉ (process_video fs (.returnsPath p) tstep fileSize true).2 ∧
    p ∈ (process_video fs (.returnsPath p) tstep fileSize false).2 ∧
    (process_video fs (.raisesF e none) tstep fileSize cleanup).2 = fs := by
  refine ⟨?_, ?_, rfl⟩
  · cases tstep <;> simp [process_video, List.mem_filter]
  · cases tstep <;> simp [process_video]

/-- C2: for every audio file larger than 25 MB, `transcribe_audio` returns
the size-exceeded failure result — `success:false`, empty transcript,
language `"en"`, the size-exceeded note — and the remote speech-to-text
service is not invoked (the second component is `false`), whatever the
service's behaviour would have been. -/
theorem C2_size_limit_short_circuit (fileSize : Nat) (svc : ServiceBehavior)
    (h : fileSize > 25 * 1024 * 1024) :
    transcribe_audio fileSize svc =
      (⟨false, "", "en", none, none, .sizeExceeded fileSize⟩, false) := by
  simp [transcribe_audio, h]

theorem C2_size_limit_witness :
    25 * 1024 * 1024 + 1 > 25 * 1024 * 1024 ∧
    transcribe_audio (25 * 1024 * 1024 + 1) (.ok "hi" "en" (some 10)) =
      (⟨false, "", "en", none, none, .sizeExceeded (25 * 1024 * 1024 + 1)⟩, false) :=
  ⟨by decide, C2_size_limit_short_circuit (25 * 1024 * 1024 + 1) (.ok "hi" "en" (some 10)) (by decide)⟩

/-- C5 as stated is false on the code: a transcription result that carries
`duration = 0` carries a duration, yet `process_video` attaches no
`estimated_cost` (Python's `if result.get("duration"):` is false for a zero
duration), while the claim demands `estimated_cost = 0 / 60 * 0.006`. -/
theorem C5_zero_duration_counterexample :
    (process_video [] (.returnsPath "a.mp3")
        (.callsService (.ok "hi" "en" (some 0))) 0 true).1.duration = some 0 ∧
    (process_video [] (.returnsPath "a.mp3")
        (.callsService (.ok "hi" "en" (some 0))) 0 true).1.estimated_cost = none ∧
    ¬ (process_video [] (.returnsPath "a.mp3")
        (.callsService (.ok "hi" "en" (some 0))) 0 true).1.estimated_cost
      = some ((0 : ℚ) / 60 * (6 / 1000)) := by
  refine ⟨rfl, rfl, by decide⟩

/-- C5 (amended): whenever the transcription result carries a nonzero
duration, `process_video` attaches `estimated_cost = duration / 60 * 0.006`
to the result; in particular, for duration 600 seconds the cost is `0.06`
(see the witness). -/
theorem C5_cost_formula (fs : FS) (p text lang : String) (d : ℚ)
    (fileSize : Nat) (cleanup : Bool) (hd : d ≠ 0)
    (hsize : fileSize ≤ 25 * 1024 * 1024) :
    (process_video fs (.returnsPath p)
        (.callsService (.ok text lang (some d))) fileSize cleanup).1.estimated_cost
      = some (d / 60 * (6 / 1000)) := by
  have hlt : ¬ fileSize > 25 * 1024 * 1024 := by omega
  simp [process_video, transcribe_audio, hlt, hd]

theorem C5_cost_formula_witness :
    (process_video [] (.returnsPath "a.mp3")
        (.callsService (.ok "hi" "en" (some 600))) 0 true).1.estimated_cost
      = some (6 / 100) := by
  rw [C5_cost_formula [] "a.mp3" "hi" "en" 600 0 true (by norm_num) (by decide)]
  norm_num

/-- C6: `process_video` never raises to its caller — it is a total function
of the external behaviours — and both a fetch failure and an exception
raised mid-pipeline are caught and converted into the failure-shaped
result `{success:false, transcript:"", language:"en", message: processing
error with the exception's text}`. -/
theorem C6_failures_converted (fs : FS) (tstep : TStep) (fileSize : Nat)
    (cleanup : Bool) (e p e₂ : String) (leak : Option String) :
    (process_video fs (.raisesF e leak) tstep fileSize cleanup).1 =
      ⟨false, "", "en", none, none, .processingError e⟩ ∧
    (process_video fs (.returnsPath p) (.raisesT e₂) fileSize cleanup).1 =
      ⟨false, "", "en", none, none, .processingError e₂⟩ :=
  ⟨rfl, rfl⟩

/-- C10: the result of `process_video` carries an `estimated_cost` exactly
when its `duration` is present (`some`) and nonzero; a success with duration
0, a result without a duration, and every failure result carry no
`estimated_cost`. -/
theorem C10_cost_presence (fs : FS) (fetchB : FetchB) (tstep : TStep)
    (fileSize : Nat) (cleanup : Bool) :
    ((process_video fs fetchB tstep fileSize cleanup).1.estimated_cost ≠ none ↔
      ∃ d : ℚ, (process_video fs fetchB tstep fileSize cleanup).1.duration = some d ∧ d ≠ 0) := by
  cases fetchB with
  | raisesF e leak => simp [process_video]
  | returnsPath p =>
      cases tstep with
      | raisesT e => simp [process_video]
      | callsService svc =>
          by_cases hs : fileSize > 25 * 1024 * 1024
          · simp [process_video, transcribe_audio, hs]
          · cases svc with
            | err e => simp [process_video, transcribe_audio, hs]
            | ok t l dur =>
                cases dur with
                | none => simp [process_video, transcribe_audio, hs]
                | some d =>
                    by_cases hd : d = 0
                    · simp [process_video, transcribe_audio, hs, hd]
                    · simp [process_video, transcribe_audio, hs, hd]

/-- C8: `extract_audio_from_video` routes to the platform-download (yt-dlp)
strategy exactly for the source references the pattern match classifies as
YouTube URLs, and to the generic ffmpeg extraction strategy for every other
reference, whatever the external tools then do. -/
theorem C8_strategy_routing (url outPath : String) (ytB : Except String String)
    (procB : ProcBehavior) :
    ((extract_audio_from_video url ytB procB outPath).2 = .ytDlp ↔
      is_youtube_url url = true) ∧
    ((extract_audio_from_video url ytB procB outPath).2 = .ffmpeg ↔
      is_youtube_url url = false) := by
  cases hyu : is_youtube_url url <;>
    simp [extract_audio_from_video, hyu]

/-- C9: in the generic (ffmpeg) extraction path the external process is run
under the fixed 60-second wall-clock timeout; a process that would run
longer yields the distinct timeout failure, a non-zero exit within the bound
yields an extraction failure carrying the process's stderr, any other
exception of the subprocess call propagates as a failure, and a path is
returned as a valid result only from a zero exit — no failure returns a
file. -/
theorem C9_ffmpeg_failure_modes (url outPath diag e : String)
    (ytB : Except String String) (secs code : Nat)
    (hurl : is_youtube_url url = false) :
    ffmpegTimeoutSeconds = 60 ∧
    (60 < secs →
      (extract_audio_from_video url ytB (.finishes secs code diag) outPath).1 =
        .error .extractionTimeout) ∧
    (secs ≤ 60 → code ≠ 0 →
      (extract_audio_from_video url ytB (.finishes secs code diag) outPath).1 =
        .error (.ffmpegFailed diag)) ∧
    ((extract_audio_from_video url ytB (.throws e) outPath).1 =
      .error (.reraised e)) ∧
    (∀ r, (extract_audio_from_video url ytB (.finishes secs code diag) outPath).1 = .ok r →
      code = 0 ∧ r = outPath) := by
  refine ⟨rfl, ?_, ?_, ?_, ?_⟩
  · intro hgt
    simp [extract_audio_from_video, hurl, runProc, ffmpegTimeoutSeconds, hgt, extractViaFfmpeg]
  · intro hle hcode
    have hngt : ¬ secs > 60 := by omega
    cases code with
    | zero => exact absurd rfl hcode
    | succ n =>
        simp [extract_audio_from_video, hurl, runProc, ffmpegTimeoutSeconds, hngt, extractViaFfmpeg]
  · simp [extract_audio_from_video, hurl, runProc, extractViaFfmpeg]
  · intro r hr
    by_cases hgt : secs > 60
    · simp [extract_audio_from_video, hurl, runProc, ffmpegTimeoutSeconds, hgt, extractViaFfmpeg] at hr
    · cases code with
      | zero =>
          simp [extract_audio_from_video, hurl, runProc, ffmpegTimeoutSeconds, hgt, extractViaFfmpeg] at hr
          exact ⟨rfl, hr.symm⟩
      | succ n =>
          simp [extract_audio_from_video, hurl, runProc, ffmpegTimeoutSeconds, hgt, extractViaFfmpeg] at hr

theorem C9_ffmpeg_failure_modes_witness :
    is_youtube_url "clip.mp4" = false ∧
    (extract_audio_from_video "clip.mp4" (.ok "x.mp3") (.finishes 61 0 "") "out.mp3").1 =
      .error .extractionTimeout :=
  ⟨by decide,
    (C9_ffmpeg_failure_modes "clip.mp4" "out.mp3" "" "err" (.ok "x.mp3") 61 0
      (by decide)).2.1 (by decide)⟩

/-- The trending loop collects exactly the matching items among the first
`maxResults - cnt` ones the feed yields, appended in feed order onto the
accumulator: `video_count` is incremented once per examined item. -/
theorem trendingLoop_eq_filter (q : String) (m : Nat) :
    ∀ (l : List TikTokItem) (cnt : Nat) (acc : List VideoRecord),
      trendingLoop q m l cnt acc =
        acc ++ ((l.take (m - cnt)).filter (fun v => matchesQuery q v.desc)).map toRecordTrending := by
  intro l
  induction l with
  | nil => intro cnt acc; simp [trendingLoop]
  | cons v rest ih =>
      intro cnt acc
      by_cases h : m ≤ cnt
      · have h0 : m - cnt = 0 := Nat.sub_eq_zero_of_le h
        simp [trendingLoop, h, h0]
      · have h2 : m - cnt = (m - (cnt + 1)) + 1 := by omega
        rw [h2]
        cases hm : matchesQuery q v.desc with
        | true =>
            simp [trendingLoop, h, hm, ih, List.take_succ_cons, List.filter_cons]
        | false =>
            simp [trendingLoop, h, hm, ih, List.take_succ_cons, List.filter_cons]

/-- C3 fails on the code: with `max_results = 2`, a hashtag feed that yields
one video and then raises, and a trending feed with two videos whose
descriptions contain a query token, the records collected by the hashtag
tier before its error are kept and the trending tier appends up to
`max_results` more onto the same list, so the search returns 3 records. -/
theorem C3_overflow_failing_input :
    (search_tiktok_videos "cat" 2 .ok [mkItem "1" "a cat video"] (some "network error")
        [mkItem "2" "cat one", mkItem "3" "cat two"]).videos.length = 3 := by
  rfl

/-- C4 fails on the code: the trending tier increments its `video_count` for
every examined item, matching or not, so it only ever examines the first
`maxResults` items of the feed.  With `maxResults = 1` and a feed whose
first item does not match but whose second does (K = 1 matching item, so the
claim demands `min(K, maxResults) = 1` records), the search returns 0
records. -/
theorem C4_min_count_counterexample :
    ([mkItem "1" "dog day", mkItem "2" "my cat"].filter
        (fun v => matchesQuery "cat" v.desc)).length = 1 ∧
    (search_tiktok_videos "cat" 1 .ok [] (some "err")
        [mkItem "1" "dog day", mkItem "2" "my cat"]).videos.length = 0 ∧
    ¬ (search_tiktok_videos "cat" 1 .ok [] (some "err")
        [mkItem "1" "dog day", mkItem "2" "my cat"]).videos.length = min 1 1 := by
  exact ⟨rfl, rfl, by decide⟩

/-- C4 (amended): if the hashtag-tier call raises before yielding anything,
the search result contains exactly the matching items among the first
`maxResults` items of the trending feed — in feed order, each mapped by the
trending-tier record mapping — i.e. `min(K', maxResults)` records where
`K'` counts matching descriptions among the examined prefix only, all
sourced from the trending tier. -/
theorem C4_trending_fallback_exact (query : String) (maxResults : Nat) (e : String)
    (feed : List TikTokItem) :
    (search_tiktok_videos query maxResults .ok [] (some e) feed).videos =
      ((feed.take maxResults).filter (fun v => matchesQuery query v.desc)).map toRecordTrending := by
  have hcoll : collectVideos query maxResults [] (some e) feed =
      ((feed.take maxResults).filter (fun v => matchesQuery query v.desc)).map toRecordTrending := by
    simp [collectVideos, hashtagLoop, trendingLoop_eq_filter]
  have hsearch : search_tiktok_videos query maxResults .ok [] (some e) feed =
      if (collectVideos query maxResults [] (some e) feed).isEmpty then
        ⟨false, [], 0, .noneFound query⟩
      else
        ⟨true, collectVideos query maxResults [] (some e) feed,
          (collectVideos query maxResults [] (some e) feed).length,
          .found (collectVideos query maxResults [] (some e) feed).length query⟩ := rfl
  rw [hsearch]
  split
  · next h => rw [← hcoll]; exact (List.isEmpty_iff.mp h).symm
  · next h => exact hcoll

/-- C7: `search_tiktok_videos` is a total function of the external
behaviours (it never throws); a top-level exception during session setup is
caught and converted into `{success:false, videos:[], total_found:0}` with
the error message attached, and when zero records are collected after both
tiers the same `success:false` empty shape is returned with the explanatory
no-results message. -/
theorem C7_search_failure_shape (query : String) (maxResults : Nat)
    (hs ts : List TikTokItem) (herr : Option String) (e : String) :
    search_tiktok_videos query maxResults (.raisesS e) hs herr ts =
      ⟨false, [], 0, .topError e query⟩ ∧
    (collectVideos query maxResults hs herr ts = [] →
      search_tiktok_videos query maxResults .ok hs herr ts =
        ⟨false, [], 0, .noneFound query⟩) := by
  refine ⟨rfl, fun hv => ?_⟩
  simp [search_tiktok_videos, hv]

theorem C7_search_failure_shape_witness :
    search_tiktok_videos "q" 5 (.raisesS "boom") [] none [] =
      ⟨false, [], 0, .topError "boom" "q"⟩ ∧
    search_tiktok_videos "q" 5 .ok [] none [] =
      ⟨false, [], 0, .noneFound "q"⟩ :=
  ⟨(C7_search_failure_shape "q" 5 [] [] none "boom").1,
    (C7_search_failure_shape "q" 5 [] [] none "boom").2 rfl⟩
